import Mathlib

/-!
Verification development for the OneClickLights Blender add-on
(single source file: `init.py`).

The add-on has two logical parts:

* `get_light_setups_data` — scans the `light_setups` directory next to the
  add-on for `*.blend` files and pairs each with a preview image path in the
  sibling `previews` directory;
* `ApplyLightSetupOperator.execute` — re-scans, linearly searches the catalog
  for an entry whose name equals the operator's `light_setup_name` string
  property, loads the light datablocks from the matching `.blend` file,
  creates a collection named `{name}_lights`, links it under the scene's root
  collection and links every loaded light into it.

The embedding below models filenames and paths as lists of characters,
the filesystem state seen by the scanner as a record (directory existence
plus the `os.listdir` outcome, where each listed item may instead be an
enumeration failure raised mid-iteration), and the host (Blender) asset
loader as an explicit function argument that either returns the list of
light datablocks or fails with a message, mirroring the `try`/`except`
blocks of the source.
-/

namespace OneClickLights

/-- Strings of the embedding: Python `str` values, as lists of characters. -/
abbrev Str := List Char

/-- Model of `os.path.join(dir, name)` for a directory path and a relative
name, as used in the source (POSIX separator). -/
def joinPath (dir name : Str) : Str := dir ++ '/' :: name

/-- The scene-asset extension tested by `filename.endswith(".blend")`. -/
def blendExt : Str := ".blend".data

/-- The fixed preview-image extension appended by the scanner. -/
def jpgExt : Str := ".jpg".data

/-- Helper for `os.path.splitext`: split a separator-free filename at its
LAST dot, returning `(before, after)` with `s = before ++ '.' :: after` and
no dot in `after`; `none` when the filename has no dot. -/
def splitAtLastDot : Str → Option (Str × Str)
  | [] => none
  | c :: rest =>
    match splitAtLastDot rest with
    | some (a, b) => some (c :: a, b)
    | none => if c = '.' then some ([], rest) else none

/-- `os.path.splitext(filename)[0]` for a filename without path separators:
the part before the last dot, except that a filename whose characters before
that dot are all dots (e.g. `".blend"`) is returned whole, matching CPython's
leading-dot rule in `splitext`. -/
def splitextStem (s : Str) : Str :=
  match splitAtLastDot s with
  | none => s
  | some (a, _) => if a.any (fun c => c ≠ '.') then a else s

/-- One catalog entry produced by the scanner: the dictionary
`{"name": ..., "blend_path": ..., "preview_path": ...}` of the source. -/
structure CatalogEntry where
  name : Str
  blend_path : Str
  preview_path : Str
deriving DecidableEq

/-- An enumeration failure (permissions, I/O) that `os.listdir` or the
iteration over its result may raise. -/
inductive OsError
  | permissionDenied
  | ioFailure
deriving DecidableEq

/-- One item yielded while iterating `os.listdir(light_setups_dir)`:
either a filename, or an exception raised at that point of the iteration. -/
inductive ListItem
  | ok (filename : Str)
  | err (e : OsError)
deriving DecidableEq

/-- The filesystem state seen by the scanner: whether the `light_setups`
directory exists, the listing the iteration over it produces, and the
contents of the sibling `previews` directory (never consulted by the
scanner: preview paths are built regardless of existence). -/
structure FS where
  lightSetupsDirExists : Bool
  listing : List ListItem
  previewListing : List Str
deriving DecidableEq

/-- `os.path.join(addon_path, "light_setups")`. -/
def lightSetupsDir (addonPath : Str) : Str :=
  joinPath addonPath "light_setups".data

/-- `os.path.join(addon_path, "previews")`. -/
def previewsDir (addonPath : Str) : Str :=
  joinPath addonPath "previews".data

/-- The body of the scanner's `for` loop for one filename: if it ends with
`".blend"`, build the entry with `name = os.path.splitext(filename)[0]`,
`blend_path = join(light_setups_dir, filename)` and
`preview_path = join(previews_dir, name + ".jpg")`; otherwise nothing. -/
def entryFor (addonPath : Str) (filename : Str) : Option CatalogEntry :=
  if blendExt.isSuffixOf filename then
    let name := splitextStem filename
    some ⟨name,
          joinPath (lightSetupsDir addonPath) filename,
          joinPath (previewsDir addonPath) (name ++ jpgExt)⟩
  else
    none

/-- The scanner's `for filename in os.listdir(...)` loop with accumulator
`light_setups`: appends the entry for each matching filename in listing
order; an exception raised mid-iteration aborts the loop (`none`). -/
def scanLoop (addonPath : Str) : List ListItem → List CatalogEntry →
    Option (List CatalogEntry)
  | [], acc => some acc
  | .err _ :: _, _ => none
  | .ok f :: rest, acc =>
    scanLoop addonPath rest (acc ++ (entryFor addonPath f).toList)

/-- `get_light_setups_data()`: if the `light_setups` directory does not
exist, create it (the returned filesystem has it present and empty) and
return `[]`; otherwise run the loop over the listing, and convert any
exception into the empty list (`except Exception: return []`). -/
def get_light_setups_data (addonPath : Str) (fs : FS) :
    FS × List CatalogEntry :=
  if fs.lightSetupsDirExists = false then
    (⟨true, [], fs.previewListing⟩, [])
  else
    (fs,
      match scanLoop addonPath fs.listing [] with
      | some entries => entries
      | none => [])

/-- A Blender collection as the operator uses it: its name and the objects
linked into it. -/
structure Collection where
  name : Str
  objects : List Str
deriving DecidableEq

/-- The document state the operator touches: the children of the scene's
root collection, and the scene's `one_click_lights_current_setup` string
property (set by the UI, read by the panel). -/
structure Scene where
  rootChildren : List Collection
  one_click_lights_current_setup : Str
deriving DecidableEq

/-- Severity of an `Operator.report` call. -/
inductive Severity
  | INFO
  | ERROR
deriving DecidableEq

/-- The operator's return status. -/
inductive OpResult
  | FINISHED
  | CANCELLED
deriving DecidableEq

/-- Outcome of `bpy.data.libraries.load` restricted to lights: either the
list of loaded light datablocks, or an exception carrying a message. -/
inductive LoadResult
  | ok (lights : List Str)
  | error (msg : Str)
deriving DecidableEq

/-- Everything observable about one `execute` call: its return status, the
reports it issued, and the document and filesystem afterwards. -/
structure ExecOutcome where
  result : OpResult
  reports : List (Severity × Str)
  scene : Scene
  fs : FS
deriving DecidableEq

/-- The default value of the operator's `light_setup_name: StringProperty`:
a `StringProperty` with no explicit default defaults to the empty string. -/
def light_setup_name_default : Str := []

/-- `ApplyLightSetupOperator.execute`: re-scan the catalog, linearly search
it for an entry whose name equals the operator's `light_setup_name`
property; if none, report `ERROR "Light setup not found."` and return
`CANCELLED`; otherwise load the lights from the entry's blend file (the
host loader `loadLights` models `bpy.data.libraries.load` restricted to
lights), and on success create the collection `{name}_lights`, link it under
the scene root, link every loaded light into it and report `INFO`; a load
exception is caught, reported as `ERROR "Error applying light setup: {e}"`,
and yields `CANCELLED` — the load happens strictly before the collection is
created. -/
def execute (addonPath : Str) (loadLights : Str → LoadResult)
    (light_setup_name : Str) (fs : FS) (scene : Scene) : ExecOutcome :=
  let scanned := get_light_setups_data addonPath fs
  match scanned.2.find? (fun setup => setup.name == light_setup_name) with
  | none =>
    ⟨.CANCELLED, [(.ERROR, "Light setup not found.".data)], scene, scanned.1⟩
  | some selected_setup =>
    match loadLights selected_setup.blend_path with
    | .error msg =>
      ⟨.CANCELLED, [(.ERROR, "Error applying light setup: ".data ++ msg)],
        scene, scanned.1⟩
    | .ok lights =>
      ⟨.FINISHED,
        [(.INFO, "Applied light setup: ".data ++ selected_setup.name)],
        ⟨scene.rootChildren ++
          [⟨selected_setup.name ++ "_lights".data, lights⟩],
          scene.one_click_lights_current_setup⟩,
        scanned.1⟩

/-- `execute` as triggered from `LightManagerPanel.draw`: the panel invokes
`layout.operator("light_manager.apply_light_setup", ...)` without assigning
the operator's `light_setup_name` property, so the operator runs with that
property at its default, the empty string — the scene's
`one_click_lights_current_setup` field is not passed to it. -/
def executeFromPanel (addonPath : Str) (loadLights : Str → LoadResult)
    (fs : FS) (scene : Scene) : ExecOutcome :=
  execute addonPath loadLights light_setup_name_default fs scene

/-! ### Helper lemmas about the scanner -/

theorem splitAtLastDot_eq_none (s : Str) (h : ∀ c ∈ s, c ≠ '.') :
    splitAtLastDot s = none := by
  induction s with
  | nil => rfl
  | cons c rest ih =>
    have hc : c ≠ '.' := h c (List.mem_cons_self c rest)
    have hr := ih (fun x hx => h x (List.mem_cons_of_mem c hx))
    simp [splitAtLastDot, hr, hc]

theorem splitAtLastDot_append (p q : Str) (hq : ∀ c ∈ q, c ≠ '.') :
    splitAtLastDot (p ++ '.' :: q) = some (p, q) := by
  induction p with
  | nil => simp [splitAtLastDot, splitAtLastDot_eq_none q hq]
  | cons c p ih => simp [splitAtLastDot, ih]

theorem no_dot_in_blend : ∀ c ∈ "blend".data, c ≠ '.' := by decide

theorem blendExt_eq_cons : blendExt = '.' :: "blend".data := by decide

/-- CPython `splitext` on a name ending in `".blend"`: the part before the
suffix when it contains a non-dot character, the whole name otherwise. -/
theorem splitextStem_append_blend (p : Str) :
    splitextStem (p ++ blendExt) =
      if p.any (fun c => c ≠ '.') then p else p ++ blendExt := by
  rw [blendExt_eq_cons]
  unfold splitextStem
  rw [splitAtLastDot_append p _ no_dot_in_blend, ← blendExt_eq_cons]

theorem blendExt_ne_nil : blendExt ≠ [] := by decide

theorem splitextStem_blend_ne_nil (p : Str) :
    splitextStem (p ++ blendExt) ≠ [] := by
  rw [splitextStem_append_blend]
  by_cases h : p.any (fun c => c ≠ '.') = true
  · rw [if_pos h]
    intro hp
    subst hp
    simp at h
  · rw [if_neg h]
    simp [blendExt_ne_nil]

theorem isSuffixOf_append_self (p : Str) :
    blendExt.isSuffixOf (p ++ blendExt) = true := by
  rw [List.isSuffixOf_iff_suffix]
  exact List.suffix_append p blendExt

/-- Every entry the loop body produces has a non-empty name. -/
theorem entryFor_name_ne_nil (a f : Str) (e : CatalogEntry)
    (h : entryFor a f = some e) : e.name ≠ [] := by
  unfold entryFor at h
  by_cases hsuf : blendExt.isSuffixOf f = true
  · rw [if_pos hsuf] at h
    obtain ⟨p, hp⟩ := List.isSuffixOf_iff_suffix.mp hsuf
    cases h
    subst hp
    exact splitextStem_blend_ne_nil p
  · rw [if_neg hsuf] at h
    cases h

/-- The loop over an error-free listing collects exactly the entries of the
matching filenames, appended to the accumulator. -/
theorem scanLoop_ok (a : Str) (files : List Str) (acc : List CatalogEntry) :
    scanLoop a (files.map ListItem.ok) acc =
      some (acc ++ files.filterMap (entryFor a)) := by
  induction files generalizing acc with
  | nil => simp [scanLoop]
  | cons f rest ih =>
    rw [List.map_cons]
    show scanLoop a (ListItem.ok f :: rest.map ListItem.ok) acc = _
    rw [show scanLoop a (ListItem.ok f :: rest.map ListItem.ok) acc =
          scanLoop a (rest.map ListItem.ok) (acc ++ (entryFor a f).toList)
        from rfl, ih]
    cases hf : entryFor a f <;> simp [List.filterMap_cons, hf]

/-- An exception anywhere in the listing aborts the loop. -/
theorem scanLoop_err (a : Str) (items : List ListItem)
    (acc : List CatalogEntry) (e : OsError)
    (h : ListItem.err e ∈ items) : scanLoop a items acc = none := by
  induction items generalizing acc with
  | nil => cases h
  | cons it rest ih =>
    cases it with
    | err e2 => rfl
    | ok f =>
      have hrest : ListItem.err e ∈ rest := by
        rcases List.mem_cons.mp h with h1 | h1
        · cases h1
        · exact h1
      show scanLoop a rest (acc ++ (entryFor a f).toList) = none
      exact ih (acc ++ (entryFor a f).toList) hrest

/-- Every entry a successful loop run yields is in the accumulator or is
produced by the loop body on some filename. -/
theorem scanLoop_mem (a : Str) (items : List ListItem)
    (acc l : List CatalogEntry) (hl : scanLoop a items acc = some l) :
    ∀ e ∈ l, e ∈ acc ∨ ∃ f, entryFor a f = some e := by
  induction items generalizing acc with
  | nil =>
    cases hl
    exact fun e he => Or.inl he
  | cons it rest ih =>
    cases it with
    | err e2 => cases hl
    | ok f =>
      intro e he
      rcases ih _ hl e he with hmem | hf
      · rcases List.mem_append.mp hmem with h1 | h1
        · exact Or.inl h1
        · refine Or.inr ⟨f, ?_⟩
          cases hof : entryFor a f <;> rw [hof] at h1 <;> simp at h1
          rw [h1]
      · exact Or.inr hf

/-- `filterMap` of the loop body is filter-then-build. -/
theorem filterMap_entryFor (a : Str) (files : List Str) :
    files.filterMap (entryFor a) =
      (files.filter (fun f => blendExt.isSuffixOf f)).map (fun f =>
        (⟨splitextStem f,
          joinPath (lightSetupsDir a) f,
          joinPath (previewsDir a) (splitextStem f ++ jpgExt)⟩ :
            CatalogEntry)) := by
  induction files with
  | nil => rfl
  | cons f rest ih =>
    by_cases h : blendExt.isSuffixOf f = true
    · simp [List.filterMap_cons, List.filter_cons, entryFor, h, ih]
    · have h2 : blendExt.isSuffixOf f = false := by
        cases hb : blendExt.isSuffixOf f
        · rfl
        · exact absurd hb h
      simp [List.filterMap_cons, List.filter_cons, entryFor, h2, ih]

/-- Scanning an existing directory whose enumeration succeeds. -/
theorem get_light_setups_data_ok (a : Str) (files : List Str)
    (pv : List Str) :
    get_light_setups_data a ⟨true, files.map ListItem.ok, pv⟩ =
      (⟨true, files.map ListItem.ok, pv⟩, files.filterMap (entryFor a)) := by
  unfold get_light_setups_data
  rw [if_neg (by simp)]
  rw [show (⟨true, files.map ListItem.ok, pv⟩ : FS).listing =
        files.map ListItem.ok from rfl, scanLoop_ok]
  simp

/-- No entry of any scan has the empty string as its name. -/
theorem scan_names_ne_nil (a : Str) (fs : FS) :
    ∀ e ∈ (get_light_setups_data a fs).2, e.name ≠ [] := by
  unfold get_light_setups_data
  by_cases h : fs.lightSetupsDirExists = false
  · rw [if_pos h]
    intro e he
    cases he
  · rw [if_neg h]
    intro e he
    cases hr : scanLoop a fs.listing [] with
    | none => rw [hr] at he; cases he
    | some l =>
      rw [hr] at he
      rcases scanLoop_mem a fs.listing [] l hr e he with hacc | ⟨f, hf⟩
      · cases hacc
      · exact entryFor_name_ne_nil a f e hf

/-- Linear search for the empty name always fails. -/
theorem find_empty_name_none (a : Str) (fs : FS) :
    ((get_light_setups_data a fs).2).find?
      (fun setup => setup.name == ([] : Str)) = none := by
  rw [List.find?_eq_none]
  intro x hx
  simpa using scan_names_ne_nil a fs x hx

/-! ### Helper lemmas about the operator -/

theorem execute_find_none (a : Str) (load : Str → LoadResult) (n : Str)
    (fs : FS) (s : Scene)
    (h : ((get_light_setups_data a fs).2).find?
        (fun setup => setup.name == n) = none) :
    execute a load n fs s =
      ⟨.CANCELLED, [(.ERROR, "Light setup not found.".data)], s,
        (get_light_setups_data a fs).1⟩ := by
  simp only [execute, h]

theorem execute_find_some_ok (a : Str) (load : Str → LoadResult) (n : Str)
    (fs : FS) (s : Scene) (sel : CatalogEntry) (lights : List Str)
    (hfind : ((get_light_setups_data a fs).2).find?
        (fun setup => setup.name == n) = some sel)
    (hload : load sel.blend_path = .ok lights) :
    execute a load n fs s =
      ⟨.FINISHED, [(.INFO, "Applied light setup: ".data ++ sel.name)],
        ⟨s.rootChildren ++ [⟨sel.name ++ "_lights".data, lights⟩],
          s.one_click_lights_current_setup⟩,
        (get_light_setups_data a fs).1⟩ := by
  simp only [execute, hfind, hload]

theorem execute_find_some_err (a : Str) (load : Str → LoadResult) (n : Str)
    (fs : FS) (s : Scene) (sel : CatalogEntry) (msg : Str)
    (hfind : ((get_light_setups_data a fs).2).find?
        (fun setup => setup.name == n) = some sel)
    (hload : load sel.blend_path = .error msg) :
    execute a load n fs s =
      ⟨.CANCELLED,
        [(.ERROR, "Error applying light setup: ".data ++ msg)], s,
        (get_light_setups_data a fs).1⟩ := by
  simp only [execute, hfind, hload]

/-! ### Concrete states used to instantiate the theorems -/

/-- A concrete add-on install path. -/
def demoAddon : Str := "/addons/one_click_lights".data

/-- A directory holding one setup file `studio.blend` with its preview. -/
def demoFS : FS :=
  ⟨true, [ListItem.ok "studio.blend".data], ["studio.jpg".data]⟩

/-- A host loader that succeeds with two light datablocks. -/
def demoLoad : Str → LoadResult :=
  fun _ => .ok ["KeyLight".data, "FillLight".data]

/-- A host loader that raises on every file. -/
def demoLoadFail : Str → LoadResult :=
  fun _ => .error "No such file or directory".data

/-- The catalog entry the scanner yields for `studio.blend`. -/
def demoEntry : CatalogEntry :=
  ⟨"studio".data,
   joinPath (lightSetupsDir demoAddon) "studio.blend".data,
   joinPath (previewsDir demoAddon) ("studio".data ++ jpgExt)⟩

/-- A document whose UI selection field holds `"studio"`. -/
def demoScene : Scene := ⟨[], "studio".data⟩

/-! ### The claims -/

/-- Claim C1: when the linear search of the re-scanned catalog selects the
entry with the requested setup name and loading the light objects from that
entry's asset file succeeds, `execute` attaches exactly one new collection
named `{name}_lights` to the scene's root collection, links every loaded
light into it, reports success naming the applied setup, and returns
`FINISHED`. -/
theorem C1_apply_existing_setup (addonPath : Str)
    (loadLights : Str → LoadResult) (name : Str) (fs : FS) (scene : Scene)
    (sel : CatalogEntry) (lights : List Str)
    (hfind : ((get_light_setups_data addonPath fs).2).find?
        (fun setup => setup.name == name) = some sel)
    (hload : loadLights sel.blend_path = .ok lights) :
    sel.name = name ∧
    (execute addonPath loadLights name fs scene).result = .FINISHED ∧
    (execute addonPath loadLights name fs scene).reports =
      [(.INFO, "Applied light setup: ".data ++ name)] ∧
    (execute addonPath loadLights name fs scene).scene.rootChildren =
      scene.rootChildren ++ [⟨name ++ "_lights".data, lights⟩] := by
  have hname : sel.name = name := by
    have := List.find?_some hfind
    simpa using this
  rw [execute_find_some_ok addonPath loadLights name fs scene sel lights
    hfind hload, hname]
  exact ⟨rfl, rfl, rfl, rfl⟩

/-- Witness for C1 on the `studio.blend` directory. -/
theorem C1_apply_existing_setup_witness :
    ((get_light_setups_data demoAddon demoFS).2).find?
        (fun setup => setup.name == "studio".data) = some demoEntry ∧
    demoLoad demoEntry.blend_path =
      .ok ["KeyLight".data, "FillLight".data] ∧
    (execute demoAddon demoLoad "studio".data demoFS demoScene).result =
      .FINISHED ∧
    (execute demoAddon demoLoad "studio".data demoFS demoScene).scene.rootChildren =
      [⟨"studio".data ++ "_lights".data,
        ["KeyLight".data, "FillLight".data]⟩] :=
  ⟨by decide, by decide,
    (C1_apply_existing_setup demoAddon demoLoad "studio".data demoFS
      demoScene demoEntry ["KeyLight".data, "FillLight".data]
      (by decide) (by decide)).2.1,
    (C1_apply_existing_setup demoAddon demoLoad "studio".data demoFS
      demoScene demoEntry ["KeyLight".data, "FillLight".data]
      (by decide) (by decide)).2.2.2⟩

/-- Claim C2: on a directory whose enumeration succeeds, the scan yields,
in listing order, exactly one entry per filename ending in `".blend"` —
named by the filename with its extension stripped, with the asset path in
the `light_setups` directory and the preview path in the sibling `previews`
directory with extension `".jpg"` — independently of the contents of the
previews directory; filenames with any other ending yield no entry, and a
directory of only non-matching files yields `[]`. -/
theorem C2_scan_entry_shape (addonPath : Str) (files : List Str)
    (pv pv2 : List Str) :
    (get_light_setups_data addonPath ⟨true, files.map ListItem.ok, pv⟩).2 =
      (files.filter (fun f => blendExt.isSuffixOf f)).map (fun f =>
        (⟨splitextStem f,
          joinPath (lightSetupsDir addonPath) f,
          joinPath (previewsDir addonPath) (splitextStem f ++ jpgExt)⟩ :
            CatalogEntry)) ∧
    (get_light_setups_data addonPath ⟨true, files.map ListItem.ok, pv⟩).2 =
      (get_light_setups_data addonPath
        ⟨true, files.map ListItem.ok, pv2⟩).2 ∧
    ((∀ f ∈ files, blendExt.isSuffixOf f = false) →
      (get_light_setups_data addonPath
        ⟨true, files.map ListItem.ok, pv⟩).2 = []) := by
  refine ⟨?_, ?_, ?_⟩
  · rw [get_light_setups_data_ok, filterMap_entryFor]
  · rw [get_light_setups_data_ok, get_light_setups_data_ok]
  · intro hall
    rw [get_light_setups_data_ok, filterMap_entryFor]
    have : files.filter (fun f => blendExt.isSuffixOf f) = [] := by
      rw [List.filter_eq_nil_iff]
      intro f hf
      simp [hall f hf]
    rw [this]
    rfl

/-- Witness for C2: a directory holding only `readme.txt` scans to `[]`. -/
theorem C2_scan_entry_shape_witness :
    (get_light_setups_data demoAddon
      ⟨true, (["readme.txt".data]).map ListItem.ok, []⟩).2 = [] :=
  (C2_scan_entry_shape demoAddon ["readme.txt".data] [] []).2.2 (by decide)

/-- Claim C3: when the linear search of the re-scanned catalog finds no
entry with the requested setup name, `execute` reports the error
`"Light setup not found."`, returns `CANCELLED`, and leaves the document
unchanged — no collection is created. -/
theorem C3_not_found (addonPath : Str) (loadLights : Str → LoadResult)
    (name : Str) (fs : FS) (scene : Scene)
    (hfind : ((get_light_setups_data addonPath fs).2).find?
        (fun setup => setup.name == name) = none) :
    (execute addonPath loadLights name fs scene).result = .CANCELLED ∧
    (execute addonPath loadLights name fs scene).reports =
      [(.ERROR, "Light setup not found.".data)] ∧
    (execute addonPath loadLights name fs scene).scene = scene := by
  rw [execute_find_none addonPath loadLights name fs scene hfind]
  exact ⟨rfl, rfl, rfl⟩

/-- Witness for C3: applying `"missing"` against the `studio.blend`
directory fails without touching the scene. -/
theorem C3_not_found_witness :
    (execute demoAddon demoLoad "missing".data demoFS demoScene).result =
      .CANCELLED ∧
    (execute demoAddon demoLoad "missing".data demoFS demoScene).scene =
      demoScene :=
  ⟨(C3_not_found demoAddon demoLoad "missing".data demoFS demoScene
      (by decide)).1,
   (C3_not_found demoAddon demoLoad "missing".data demoFS demoScene
      (by decide)).2.2⟩

/-- Claim C4 (code bug): the claim says the applied setup name is read from
the document's `one_click_lights_current_setup` field, but `execute` reads
only the operator's own `light_setup_name` property, which the panel's
`layout.operator` call never assigns, so it stays at its default, the empty
string. Evaluated at the failing input — scene field `"studio"`, catalog
containing an entry named `"studio"`, loader succeeding — the
panel-triggered apply ends `CANCELLED` with `"Light setup not found."`,
while applying the document field's value directly would have finished. -/
theorem C4_panel_apply_ignores_document_field :
    demoScene.one_click_lights_current_setup = "studio".data ∧
    ((get_light_setups_data demoAddon demoFS).2).find?
      (fun setup =>
        setup.name == demoScene.one_click_lights_current_setup) =
      some demoEntry ∧
    (executeFromPanel demoAddon demoLoad demoFS demoScene).result =
      .CANCELLED ∧
    (executeFromPanel demoAddon demoLoad demoFS demoScene).reports =
      [(.ERROR, "Light setup not found.".data)] ∧
    (execute demoAddon demoLoad demoScene.one_click_lights_current_setup
      demoFS demoScene).result = .FINISHED := by
  refine ⟨by decide, by decide, by decide, by decide, by decide⟩

/-- Claim C5: when the selected entry's asset load raises, the exception is
caught and reported as `"Error applying light setup: {e}"`, `execute`
returns `CANCELLED`, and the document is unchanged — in particular no
collection has been created or attached, the load happening strictly before
collection creation. -/
theorem C5_load_failure (addonPath : Str) (loadLights : Str → LoadResult)
    (name : Str) (fs : FS) (scene : Scene) (sel : CatalogEntry) (msg : Str)
    (hfind : ((get_light_setups_data addonPath fs).2).find?
        (fun setup => setup.name == name) = some sel)
    (hload : loadLights sel.blend_path = .error msg) :
    (execute addonPath loadLights name fs scene).result = .CANCELLED ∧
    (execute addonPath loadLights name fs scene).reports =
      [(.ERROR, "Error applying light setup: ".data ++ msg)] ∧
    (execute addonPath loadLights name fs scene).scene = scene := by
  rw [execute_find_some_err addonPath loadLights name fs scene sel msg
    hfind hload]
  exact ⟨rfl, rfl, rfl⟩

/-- Witness for C5: a loader that raises on `studio.blend`. -/
theorem C5_load_failure_witness :
    (execute demoAddon demoLoadFail "studio".data demoFS demoScene).result =
      .CANCELLED ∧
    (execute demoAddon demoLoadFail "studio".data demoFS demoScene).scene =
      demoScene :=
  ⟨(C5_load_failure demoAddon demoLoadFail "studio".data demoFS demoScene
      demoEntry "No such file or directory".data (by decide) (by decide)).1,
   (C5_load_failure demoAddon demoLoadFail "studio".data demoFS demoScene
      demoEntry "No such file or directory".data
        (by decide) (by decide)).2.2⟩

/-- Claim C6: when the `light_setups` directory does not exist, the scan
creates it (the resulting filesystem differs only in that the directory now
exists, empty) and returns `[]`; an apply of any name on the resulting
filesystem ends `CANCELLED` with `"Light setup not found."` and an
unchanged document. -/
theorem C6_bootstrap_missing_directory (addonPath : Str)
    (loadLights : Str → LoadResult) (name : Str) (fs : FS) (scene : Scene)
    (h : fs.lightSetupsDirExists = false) :
    get_light_setups_data addonPath fs =
      (⟨true, [], fs.previewListing⟩, []) ∧
    (execute addonPath loadLights name (get_light_setups_data addonPath fs).1
      scene).result = .CANCELLED ∧
    (execute addonPath loadLights name (get_light_setups_data addonPath fs).1
      scene).reports = [(.ERROR, "Light setup not found.".data)] ∧
    (execute addonPath loadLights name (get_light_setups_data addonPath fs).1
      scene).scene = scene := by
  have hscan : get_light_setups_data addonPath fs =
      (⟨true, [], fs.previewListing⟩, []) := by
    unfold get_light_setups_data
    rw [if_pos h]
  refine ⟨hscan, ?_⟩
  have hempty : (get_light_setups_data addonPath
      (get_light_setups_data addonPath fs).1).2 = [] := by
    rw [hscan]
    rfl
  have hfind : ((get_light_setups_data addonPath
      (get_light_setups_data addonPath fs).1).2).find?
      (fun setup => setup.name == name) = none := by
    rw [hempty]
    rfl
  rw [execute_find_none addonPath loadLights name _ scene hfind]
  exact ⟨rfl, rfl, rfl⟩

/-- Witness for C6 on an absent directory. -/
theorem C6_bootstrap_missing_directory_witness :
    get_light_setups_data demoAddon ⟨false, [], []⟩ =
      (⟨true, [], []⟩, []) ∧
    (execute demoAddon demoLoad "studio".data
      (get_light_setups_data demoAddon ⟨false, [], []⟩).1 demoScene).result =
      .CANCELLED :=
  ⟨(C6_bootstrap_missing_directory demoAddon demoLoad "studio".data
      ⟨false, [], []⟩ demoScene (by decide)).1,
   (C6_bootstrap_missing_directory demoAddon demoLoad "studio".data
      ⟨false, [], []⟩ demoScene (by decide)).2.1⟩

/-- Claim C7: an enumeration failure raised at any point while iterating
the directory listing is caught and turned into the empty catalog — the
entries collected before the failure are discarded and the scan returns to
its caller normally. -/
theorem C7_enumeration_failure (addonPath : Str) (fs : FS) (e : OsError)
    (hdir : fs.lightSetupsDirExists = true)
    (herr : ListItem.err e ∈ fs.listing) :
    (get_light_setups_data addonPath fs).2 = [] := by
  unfold get_light_setups_data
  rw [if_neg (by rw [hdir]; simp),
    scanLoop_err addonPath fs.listing [] e herr]

/-- Witness for C7: the failure arrives after `studio.blend` was already
collected; the collected entry is discarded. -/
theorem C7_enumeration_failure_witness :
    (get_light_setups_data demoAddon
      ⟨true, [ListItem.ok "studio.blend".data,
              ListItem.err OsError.ioFailure], []⟩).2 = [] :=
  C7_enumeration_failure demoAddon
    ⟨true, [ListItem.ok "studio.blend".data,
            ListItem.err OsError.ioFailure], []⟩
    OsError.ioFailure (by decide) (by decide)

/-- Claim C8 is false as stated: one scan of a directory holding the two
distinct files `".blend"` and `".blend.blend"` yields two distinct entries
that share the name `".blend"` — `os.path.splitext` leaves a filename
consisting only of an extension intact, so stripping the extension is not
injective on filenames ending in `".blend"`. -/
theorem C8_duplicate_names_counterexample :
    (get_light_setups_data demoAddon
      ⟨true, [ListItem.ok ".blend".data, ListItem.ok ".blend.blend".data],
        []⟩).2 =
      [⟨".blend".data, joinPath (lightSetupsDir demoAddon) ".blend".data,
        joinPath (previewsDir demoAddon) (".blend".data ++ jpgExt)⟩,
       ⟨".blend".data,
        joinPath (lightSetupsDir demoAddon) ".blend.blend".data,
        joinPath (previewsDir demoAddon) (".blend".data ++ jpgExt)⟩] ∧
    (⟨".blend".data, joinPath (lightSetupsDir demoAddon) ".blend".data,
      joinPath (previewsDir demoAddon) (".blend".data ++ jpgExt)⟩ :
        CatalogEntry).name =
      (⟨".blend".data,
        joinPath (lightSetupsDir demoAddon) ".blend.blend".data,
        joinPath (previewsDir demoAddon) (".blend".data ++ jpgExt)⟩ :
          CatalogEntry).name ∧
    (⟨".blend".data, joinPath (lightSetupsDir demoAddon) ".blend".data,
      joinPath (previewsDir demoAddon) (".blend".data ++ jpgExt)⟩ :
        CatalogEntry) ≠
      ⟨".blend".data,
       joinPath (lightSetupsDir demoAddon) ".blend.blend".data,
       joinPath (previewsDir demoAddon) (".blend".data ++ jpgExt)⟩ := by
  refine ⟨by decide, by decide, by decide⟩

/-- Claim C8 as amended: within a single scan, entries derived from
distinct filenames have distinct names provided each filename contains a
non-dot character before its trailing `".blend"` (the case of every
ordinary setup file); without that proviso uniqueness fails, since
`".blend"` and `".blend.blend"` both yield the name `".blend"`. -/
theorem C8_amended_unique_names (addonPath : Str) (p q : Str)
    (e1 e2 : CatalogEntry)
    (hp : p.any (fun c => c ≠ '.') = true)
    (hq : q.any (fun c => c ≠ '.') = true)
    (hne : p ≠ q)
    (h1 : entryFor addonPath (p ++ blendExt) = some e1)
    (h2 : entryFor addonPath (q ++ blendExt) = some e2) :
    e1.name ≠ e2.name := by
  have n1 : e1.name = p := by
    unfold entryFor at h1
    rw [if_pos (isSuffixOf_append_self p)] at h1
    have h1' := Option.some.inj h1
    rw [← h1']
    show splitextStem (p ++ blendExt) = p
    rw [splitextStem_append_blend, if_pos hp]
  have n2 : e2.name = q := by
    unfold entryFor at h2
    rw [if_pos (isSuffixOf_append_self q)] at h2
    have h2' := Option.some.inj h2
    rw [← h2']
    show splitextStem (q ++ blendExt) = q
    rw [splitextStem_append_blend, if_pos hq]
  rw [n1, n2]
  exact hne

/-- Witness for the amended C8 on the filenames `studio.blend` and
`rim.blend`. -/
theorem C8_amended_unique_names_witness :
    (⟨"studio".data,
      joinPath (lightSetupsDir demoAddon) ("studio".data ++ blendExt),
      joinPath (previewsDir demoAddon) ("studio".data ++ jpgExt)⟩ :
        CatalogEntry).name ≠
    (⟨"rim".data,
      joinPath (lightSetupsDir demoAddon) ("rim".data ++ blendExt),
      joinPath (previewsDir demoAddon) ("rim".data ++ jpgExt)⟩ :
        CatalogEntry).name :=
  C8_amended_unique_names demoAddon "studio".data "rim".data _ _
    (by decide) (by decide) (by decide) (by decide) (by decide)

/-- Claim C9: re-scanning with no filesystem change in between (beyond the
first scan's own possible directory creation) yields the same entries — the
entry sets of the two scans are equal as unordered sets. -/
theorem C9_scan_idempotent (addonPath : Str) (fs : FS) (e : CatalogEntry) :
    e ∈ (get_light_setups_data addonPath
        (get_light_setups_data addonPath fs).1).2 ↔
      e ∈ (get_light_setups_data addonPath fs).2 := by
  by_cases h : fs.lightSetupsDirExists = false
  · have h1 : get_light_setups_data addonPath fs =
        (⟨true, [], fs.previewListing⟩, []) := by
      unfold get_light_setups_data
      rw [if_pos h]
    rw [h1]
    rfl
  · have h1 : (get_light_setups_data addonPath fs).1 = fs := by
      unfold get_light_setups_data
      rw [if_neg h]
    rw [h1]

/-- Witness for C9 on the `studio.blend` directory. -/
theorem C9_scan_idempotent_witness :
    demoEntry ∈ (get_light_setups_data demoAddon
        (get_light_setups_data demoAddon demoFS).1).2 ↔
      demoEntry ∈ (get_light_setups_data demoAddon demoFS).2 :=
  C9_scan_idempotent demoAddon demoFS demoEntry

/-- Claim C10: the operator's `light_setup_name` property defaults to the
empty string; no scan ever yields an entry whose name is empty (a file
named exactly `".blend"` yields the name `".blend"`), so applying with the
default name always ends `CANCELLED` with `"Light setup not found."` and an
unchanged document. -/
theorem C10_empty_name_apply_fails (addonPath : Str)
    (loadLights : Str → LoadResult) (fs : FS) (scene : Scene) :
    light_setup_name_default = [] ∧
    (∀ e ∈ (get_light_setups_data addonPath fs).2, e.name ≠ []) ∧
    entryFor addonPath ".blend".data =
      some ⟨".blend".data,
        joinPath (lightSetupsDir addonPath) ".blend".data,
        joinPath (previewsDir addonPath) (".blend".data ++ jpgExt)⟩ ∧
    (execute addonPath loadLights light_setup_name_default fs
      scene).result = .CANCELLED ∧
    (execute addonPath loadLights light_setup_name_default fs
      scene).reports = [(.ERROR, "Light setup not found.".data)] ∧
    (execute addonPath loadLights light_setup_name_default fs
      scene).scene = scene := by
  have hfind := find_empty_name_none addonPath fs
  have hexec := execute_find_none addonPath loadLights
    light_setup_name_default fs scene hfind
  refine ⟨rfl, scan_names_ne_nil addonPath fs, ?_, ?_, ?_, ?_⟩
  · unfold entryFor
    rw [if_pos (by decide : blendExt.isSuffixOf ".blend".data = true)]
    rfl
  · rw [hexec]
  · rw [hexec]
  · rw [hexec]

/-- Witness for C10 on the `studio.blend` directory. -/
theorem C10_empty_name_apply_fails_witness :
    (execute demoAddon demoLoad light_setup_name_default demoFS
      demoScene).result = .CANCELLED :=
  (C10_empty_name_apply_fails demoAddon demoLoad demoFS demoScene).2.2.2.1

end OneClickLights
